import Mathlib

/- Shallow embedding of the time-series generator in Isra.py
   (class IsraelCommuneFinanceAnalyzer).

   Conventions:
   - Python float arithmetic is modelled exactly over ℚ; decimal literals
     of the source become the corresponding rationals (0.07 = 7/100, ...).
   - Each call np.random.normal(1, sigma) in a simulate loop is modelled by
     an explicit noise stream argument (Nat → ℚ) giving the draw for each
     0-based year offset i; the per-metric standard deviations of the
     source are recorded in the table metric_noise_stddevs below.
   - The implicit global NumPy random state is modelled by a single draw
     stream g : Nat → ℚ together with an offset: the k-th draw a run
     performs reads g (offset + k).  Draw order follows the source:
     generate_financial_data fills the noisy columns one after the other
     (Recettes_Totales first, Investissement_Culture last), each column
     drawing one noise value per year in year order. -/

namespace Isra

/-- Profile of a commune: the entries of the configs dictionary of
_get_commune_config (fields population_base, budget_base, type,
specialites). -/
structure CommuneConfig where
  population_base : ℚ
  budget_base : ℚ
  type : String
  specialites : List String
deriving DecidableEq

/-- self.start_year = 2002. -/
def start_year : Nat := 2002

/-- self.end_year = 2025. -/
def end_year : Nat := 2025

/-- self.eur_to_ils = 4.0. -/
def eur_to_ils : ℚ := 4

/-- _convert_to_shekels: multiply a euro amount by eur_to_ils. -/
def convert_to_shekels (amount_eur : ℚ) : ℚ := amount_eur * eur_to_ils

/-- The "default" entry of the configs dictionary. -/
def defaultConfig : CommuneConfig :=
  { population_base := 50000
    budget_base := 800
    type := "locale"
    specialites := ["commerce_local", "services", "education", "sante"] }

/-- The names that are keys of the configs dictionary other than
"default". -/
def knownCommunes : List String :=
  ["Jérusalem", "Tel Aviv-Jaffa", "Haïfa", "Beer-Sheva", "Netanya",
   "Ashdod", "Rishon LeZion", "Petah Tikva", "Eilat", "Tiberiade",
   "Nahariya", "Safed"]

/-- _get_commune_config: dictionary lookup with fallback
configs.get(name, configs\x7b"default"\x7d). -/
def get_commune_config (commune : String) : CommuneConfig :=
  if commune = "Jérusalem" then
    ⟨950000, 8500, "capitale",
      ["tourisme", "administration", "education", "culture", "religion"]⟩
  else if commune = "Tel Aviv-Jaffa" then
    ⟨460000, 12000, "metropolitaine",
      ["finance", "technologie", "commerce", "tourisme", "culture"]⟩
  else if commune = "Haïfa" then
    ⟨285000, 4800, "portuaire",
      ["port", "industrie", "technologie", "education", "tourisme"]⟩
  else if commune = "Beer-Sheva" then
    ⟨220000, 3200, "regionale",
      ["desert", "technologie", "sante", "education", "cybersecurite"]⟩
  else if commune = "Netanya" then
    ⟨220000, 2800, "cotiere",
      ["tourisme", "immobilier", "commerce", "diamants"]⟩
  else if commune = "Ashdod" then
    ⟨225000, 3500, "portuaire",
      ["port", "industrie", "commerce", "logistique"]⟩
  else if commune = "Rishon LeZion" then
    ⟨255000, 3800, "banlieue",
      ["vin", "commerce", "education", "services"]⟩
  else if commune = "Petah Tikva" then
    ⟨250000, 3600, "industrielle",
      ["industrie", "sante", "technologie", "agriculture"]⟩
  else if commune = "Eilat" then
    ⟨52000, 1800, "touristique",
      ["tourisme", "plongee", "commerce_libre", "loisirs"]⟩
  else if commune = "Tiberiade" then
    ⟨44000, 850, "touristique",
      ["lac", "tourisme_religieux", "thermal", "histoire"]⟩
  else if commune = "Nahariya" then
    ⟨58000, 950, "cotiere",
      ["tourisme", "agriculture", "commerce_frontalier"]⟩
  else if commune = "Safed" then
    ⟨37000, 680, "religieuse",
      ["kabbalah", "art", "tourisme_religieux", "histoire"]⟩
  else defaultConfig

/-- _simulate_population: base population times a category-dependent
linear growth; the source draws no noise for this metric. -/
def simulate_population (cfg : CommuneConfig) (i : Nat) : ℚ :=
  let growth_rate : ℚ :=
    if cfg.type = "capitale" then 18/1000
    else if cfg.type = "metropolitaine" then 22/1000
    else if cfg.type = "touristique" then 25/1000
    else 20/1000
  cfg.population_base * (1 + growth_rate * i)

/-- _simulate_households: population_base / 3.0 times linear growth
0.018 per offset; the source draws no noise for this metric. -/
def simulate_households (cfg : CommuneConfig) (i : Nat) : ℚ :=
  (cfg.population_base / 3) * (1 + 18/1000 * i)

/-- _simulate_total_revenue. -/
def simulate_total_revenue (cfg : CommuneConfig) (noise : Nat → ℚ) (i : Nat) : ℚ :=
  let base_revenue := convert_to_shekels cfg.budget_base
  let growth_rate : ℚ :=
    if cfg.type = "metropolitaine" then 38/1000
    else if cfg.type = "technologie" then 42/1000
    else 35/1000
  base_revenue * (1 + growth_rate * i) * noise i

/-- _simulate_tax_revenue. -/
def simulate_tax_revenue (cfg : CommuneConfig) (noise : Nat → ℚ) (i : Nat) : ℚ :=
  convert_to_shekels (cfg.budget_base * (40/100)) * (1 + 32/1000 * i) * noise i

/-- _simulate_government_grants: year-keyed increase from 2010 on, no
linear-in-offset growth factor. -/
def simulate_government_grants (cfg : CommuneConfig) (noise : Nat → ℚ) (i : Nat) : ℚ :=
  let year := start_year + i
  let increase : ℚ := if 2010 ≤ year then 1 + 8/1000 * ((year - 2010 : Nat) : ℚ) else 1
  convert_to_shekels (cfg.budget_base * (35/100)) * increase * noise i

/-- _simulate_other_revenue. -/
def simulate_other_revenue (cfg : CommuneConfig) (noise : Nat → ℚ) (i : Nat) : ℚ :=
  convert_to_shekels (cfg.budget_base * (25/100)) * (1 + 28/1000 * i) * noise i

/-- _simulate_total_expenses. -/
def simulate_total_expenses (cfg : CommuneConfig) (noise : Nat → ℚ) (i : Nat) : ℚ :=
  convert_to_shekels (cfg.budget_base * (96/100)) * (1 + 34/1000 * i) * noise i

/-- _simulate_operating_expenses. -/
def simulate_operating_expenses (cfg : CommuneConfig) (noise : Nat → ℚ) (i : Nat) : ℚ :=
  convert_to_shekels (cfg.budget_base * (60/100)) * (1 + 30/1000 * i) * noise i

/-- _simulate_investment_expenses: event-year multiplier 1.6 on plan
years, 0.8 on recession years. -/
def simulate_investment_expenses (cfg : CommuneConfig) (noise : Nat → ℚ) (i : Nat) : ℚ :=
  let year := start_year + i
  let multiplier : ℚ :=
    if year ∈ [2006, 2012, 2018, 2023] then 16/10
    else if year ∈ [2008, 2014, 2020] then 8/10
    else 1
  convert_to_shekels (cfg.budget_base * (36/100)) * (1 + 28/1000 * i) * multiplier * noise i

/-- _simulate_debt_charges: year-keyed increase from 2005 on. -/
def simulate_debt_charges (cfg : CommuneConfig) (noise : Nat → ℚ) (i : Nat) : ℚ :=
  let year := start_year + i
  let increase : ℚ := if 2005 ≤ year then 1 + 8/1000 * ((year - 2005 : Nat) : ℚ) else 1
  convert_to_shekels (cfg.budget_base * (6/100)) * increase * noise i

/-- _simulate_staff_costs. -/
def simulate_staff_costs (cfg : CommuneConfig) (noise : Nat → ℚ) (i : Nat) : ℚ :=
  convert_to_shekels (cfg.budget_base * (42/100)) * (1 + 31/1000 * i) * noise i

/-- _simulate_gross_savings: year-keyed improvement from 2010 on. -/
def simulate_gross_savings (cfg : CommuneConfig) (noise : Nat → ℚ) (i : Nat) : ℚ :=
  let year := start_year + i
  let improvement : ℚ := if 2010 ≤ year then 1 + 10/1000 * ((year - 2010 : Nat) : ℚ) else 1
  convert_to_shekels (cfg.budget_base * (4/100)) * improvement * noise i

/-- The event-year change factor of _simulate_total_debt. -/
def debt_event_change (year : Nat) : ℚ :=
  if year ∈ [2006, 2012, 2018, 2023] then 120/100
  else if year ∈ [2008, 2014, 2020] then 88/100
  else 1

/-- _simulate_total_debt: base times event-year change times noise; the
source applies no growth factor in the offset. -/
def simulate_total_debt (cfg : CommuneConfig) (noise : Nat → ℚ) (i : Nat) : ℚ :=
  convert_to_shekels (cfg.budget_base * (75/100)) * debt_event_change (start_year + i) * noise i

/-- _simulate_debt_ratio: fixed base 0.65 with year-keyed improvement
from 2010 on. -/
def simulate_debt_ratio (noise : Nat → ℚ) (i : Nat) : ℚ :=
  let year := start_year + i
  let improvement : ℚ := if 2010 ≤ year then 1 - 12/1000 * ((year - 2010 : Nat) : ℚ) else 1
  (65/100) * improvement * noise i

/-- _simulate_tax_rate: fixed base 0.92 with year-keyed increase from
2010 on. -/
def simulate_tax_rate (noise : Nat → ℚ) (i : Nat) : ℚ :=
  let year := start_year + i
  let increase : ℚ := if 2010 ≤ year then 1 + 6/1000 * ((year - 2010 : Nat) : ℚ) else 1
  (92/100) * increase * noise i

/-- The specialty multiplier of _simulate_technology_investment:
1.8 when "technologie" is among the specialties, else 0.7. -/
def technologie_multiplier (cfg : CommuneConfig) : ℚ :=
  if cfg.specialites.contains "technologie" then 18/10 else 7/10

/-- _simulate_technology_investment. -/
def simulate_technology_investment (cfg : CommuneConfig) (noise : Nat → ℚ) (i : Nat) : ℚ :=
  let year := start_year + i
  let year_multiplier : ℚ := if year ∈ [2005, 2010, 2015, 2020] then 22/10 else 1
  convert_to_shekels (cfg.budget_base * (8/100)) * (1 + 45/1000 * i) * year_multiplier
    * technologie_multiplier cfg * noise i

/-- The specialty multiplier of _simulate_tourism_investment:
1.7 when "tourisme" is among the specialties, else 0.8. -/
def tourisme_multiplier (cfg : CommuneConfig) : ℚ :=
  if cfg.specialites.contains "tourisme" then 17/10 else 8/10

/-- _simulate_tourism_investment. -/
def simulate_tourism_investment (cfg : CommuneConfig) (noise : Nat → ℚ) (i : Nat) : ℚ :=
  let year := start_year + i
  let year_multiplier : ℚ := if year ∈ [2007, 2013, 2019, 2024] then 18/10 else 1
  convert_to_shekels (cfg.budget_base * (6/100)) * (1 + 35/1000 * i) * year_multiplier
    * tourisme_multiplier cfg * noise i

/-- The specialty multiplier of _simulate_transport_investment:
1.4 when "transport" is among the specialties, else 1.0. -/
def transport_multiplier (cfg : CommuneConfig) : ℚ :=
  if cfg.specialites.contains "transport" then 14/10 else 1

/-- _simulate_transport_investment. -/
def simulate_transport_investment (cfg : CommuneConfig) (noise : Nat → ℚ) (i : Nat) : ℚ :=
  let year := start_year + i
  let year_multiplier : ℚ := if year ∈ [2006, 2012, 2018, 2023] then 17/10 else 1
  convert_to_shekels (cfg.budget_base * (5/100)) * (1 + 32/1000 * i) * year_multiplier
    * transport_multiplier cfg * noise i

/-- The specialty multiplier of _simulate_education_investment:
1.5 when "education" is among the specialties, else 1.0. -/
def education_multiplier (cfg : CommuneConfig) : ℚ :=
  if cfg.specialites.contains "education" then 15/10 else 1

/-- _simulate_education_investment. -/
def simulate_education_investment (cfg : CommuneConfig) (noise : Nat → ℚ) (i : Nat) : ℚ :=
  let year := start_year + i
  let year_multiplier : ℚ := if year ∈ [2008, 2014, 2020] then 16/10 else 1
  convert_to_shekels (cfg.budget_base * (7/100)) * (1 + 30/1000 * i) * year_multiplier
    * education_multiplier cfg * noise i

/-- The multiplier of _simulate_security_investment: 1.6 when
"frontaliere" is among the specialties or the type is "capitale" or
"metropolitaine", else 1.0. -/
def securite_multiplier (cfg : CommuneConfig) : ℚ :=
  if cfg.specialites.contains "frontaliere" ∨ cfg.type = "capitale" ∨ cfg.type = "metropolitaine"
  then 16/10 else 1

/-- _simulate_security_investment. -/
def simulate_security_investment (cfg : CommuneConfig) (noise : Nat → ℚ) (i : Nat) : ℚ :=
  let year := start_year + i
  let year_multiplier : ℚ := if year ∈ [2002, 2006, 2009, 2014, 2021] then 2 else 1
  convert_to_shekels (cfg.budget_base * (4/100)) * (1 + 25/1000 * i) * year_multiplier
    * securite_multiplier cfg * noise i

/-- The specialty multiplier of _simulate_environment_investment:
1.4 when "environnement" is among the specialties, else 0.9. -/
def environnement_multiplier (cfg : CommuneConfig) : ℚ :=
  if cfg.specialites.contains "environnement" then 14/10 else 9/10

/-- _simulate_environment_investment. -/
def simulate_environment_investment (cfg : CommuneConfig) (noise : Nat → ℚ) (i : Nat) : ℚ :=
  let year := start_year + i
  let year_multiplier : ℚ := if year ∈ [2009, 2015, 2021] then 18/10 else 1
  convert_to_shekels (cfg.budget_base * (3/100)) * (1 + 28/1000 * i) * year_multiplier
    * environnement_multiplier cfg * noise i

/-- The specialty multiplier of _simulate_culture_investment:
1.7 when "culture" is among the specialties, else 0.8. -/
def culture_multiplier (cfg : CommuneConfig) : ℚ :=
  if cfg.specialites.contains "culture" then 17/10 else 8/10

/-- _simulate_culture_investment. -/
def simulate_culture_investment (cfg : CommuneConfig) (noise : Nat → ℚ) (i : Nat) : ℚ :=
  let year := start_year + i
  let year_multiplier : ℚ := if year ∈ [2010, 2016, 2022] then 19/10 else 1
  convert_to_shekels (cfg.budget_base * (2/100)) * (1 + 25/1000 * i) * year_multiplier
    * culture_multiplier cfg * noise i

/-- One row of the generated table: the columns of the data dictionary
built by generate_financial_data, in insertion order. -/
structure FinRecord where
  Annee : Nat
  Population : ℚ
  Menages : ℚ
  Recettes_Totales : ℚ
  Impots_Locaux : ℚ
  Subventions_Gouvernement : ℚ
  Autres_Recettes : ℚ
  Depenses_Totales : ℚ
  Fonctionnement : ℚ
  Investissement : ℚ
  Charge_Dette : ℚ
  Personnel : ℚ
  Epargne_Brute : ℚ
  Dette_Totale : ℚ
  Taux_Endettement : ℚ
  Taux_Fiscalite : ℚ
  Investissement_Technologie : ℚ
  Investissement_Tourisme : ℚ
  Investissement_Transport : ℚ
  Investissement_Education : ℚ
  Investissement_Securite : ℚ
  Investissement_Environnement : ℚ
  Investissement_Culture : ℚ
deriving DecidableEq

/-- The column names of the generated table, in the insertion order of
the data dictionary of generate_financial_data. -/
def colonnes : List String :=
  ["Annee", "Population", "Menages", "Recettes_Totales", "Impots_Locaux",
   "Subventions_Gouvernement", "Autres_Recettes", "Depenses_Totales",
   "Fonctionnement", "Investissement", "Charge_Dette", "Personnel",
   "Epargne_Brute", "Dette_Totale", "Taux_Endettement", "Taux_Fiscalite",
   "Investissement_Technologie", "Investissement_Tourisme",
   "Investissement_Transport", "Investissement_Education",
   "Investissement_Securite", "Investissement_Environnement",
   "Investissement_Culture"]

/-- The noise standard deviations of the np.random.normal(1, sigma)
draws, indexed by noisy column in generation order: 0 Recettes_Totales
(0.07), 1 Impots_Locaux (0.08), 2 Subventions_Gouvernement (0.05),
3 Autres_Recettes (0.09), 4 Depenses_Totales (0.06), 5 Fonctionnement
(0.05), 6 Investissement (0.15), 7 Charge_Dette (0.09), 8 Personnel
(0.04), 9 Epargne_Brute (0.12), 10 Dette_Totale (0.08),
11 Taux_Endettement (0.06), 12 Taux_Fiscalite (0.03),
13 Investissement_Technologie (0.18), 14 Investissement_Tourisme (0.16),
15 Investissement_Transport (0.15), 16 Investissement_Education (0.14),
17 Investissement_Securite (0.20), 18 Investissement_Environnement
(0.16), 19 Investissement_Culture (0.15). -/
def metric_noise_stddevs : List ℚ :=
  [7/100, 8/100, 5/100, 9/100, 6/100, 5/100, 15/100, 9/100, 4/100, 12/100,
   8/100, 6/100, 3/100, 18/100, 16/100, 15/100, 14/100, 20/100, 16/100, 15/100]

/-- One generated row before the trends pass, at 0-based year offset i.
The noise family ns gives the draw stream of each noisy column, indexed
as in metric_noise_stddevs. -/
def generate_record (cfg : CommuneConfig) (ns : Nat → Nat → ℚ) (i : Nat) : FinRecord where
  Annee := start_year + i
  Population := simulate_population cfg i
  Menages := simulate_households cfg i
  Recettes_Totales := simulate_total_revenue cfg (ns 0) i
  Impots_Locaux := simulate_tax_revenue cfg (ns 1) i
  Subventions_Gouvernement := simulate_government_grants cfg (ns 2) i
  Autres_Recettes := simulate_other_revenue cfg (ns 3) i
  Depenses_Totales := simulate_total_expenses cfg (ns 4) i
  Fonctionnement := simulate_operating_expenses cfg (ns 5) i
  Investissement := simulate_investment_expenses cfg (ns 6) i
  Charge_Dette := simulate_debt_charges cfg (ns 7) i
  Personnel := simulate_staff_costs cfg (ns 8) i
  Epargne_Brute := simulate_gross_savings cfg (ns 9) i
  Dette_Totale := simulate_total_debt cfg (ns 10) i
  Taux_Endettement := simulate_debt_ratio (ns 11) i
  Taux_Fiscalite := simulate_tax_rate (ns 12) i
  Investissement_Technologie := simulate_technology_investment cfg (ns 13) i
  Investissement_Tourisme := simulate_tourism_investment cfg (ns 14) i
  Investissement_Transport := simulate_transport_investment cfg (ns 15) i
  Investissement_Education := simulate_education_investment cfg (ns 16) i
  Investissement_Securite := simulate_security_investment cfg (ns 17) i
  Investissement_Environnement := simulate_environment_investment cfg (ns 18) i
  Investissement_Culture := simulate_culture_investment cfg (ns 19) i

/-- _add_israeli_trends, window 2002-2005 (Second Intifada). -/
def trends_step1 (r : FinRecord) : FinRecord :=
  if 2002 ≤ r.Annee ∧ r.Annee ≤ 2005 then
    { r with Investissement_Tourisme := r.Investissement_Tourisme * (7/10)
             Recettes_Totales := r.Recettes_Totales * (95/100) }
  else r

/-- _add_israeli_trends, window 2006-2008 (technology boom). -/
def trends_step2 (r : FinRecord) : FinRecord :=
  if 2006 ≤ r.Annee ∧ r.Annee ≤ 2008 then
    { r with Investissement_Technologie := r.Investissement_Technologie * (16/10)
             Recettes_Totales := r.Recettes_Totales * (108/100) }
  else r

/-- _add_israeli_trends, window 2008-2009 (financial crisis) with its
elif window 2010-2019 (strong growth). -/
def trends_step3 (r : FinRecord) : FinRecord :=
  if 2008 ≤ r.Annee ∧ r.Annee ≤ 2009 then
    { r with Recettes_Totales := r.Recettes_Totales * (92/100)
             Investissement := r.Investissement * (78/100) }
  else if 2010 ≤ r.Annee ∧ r.Annee ≤ 2019 then
    { r with Investissement_Technologie := r.Investissement_Technologie * (12/10)
             Subventions_Gouvernement := r.Subventions_Gouvernement * (105/100) }
  else r

/-- _add_israeli_trends, year 2014 (military operations). -/
def trends_step4 (r : FinRecord) : FinRecord :=
  if r.Annee = 2014 then
    { r with Investissement_Securite := r.Investissement_Securite * (25/10)
             Depenses_Totales := r.Depenses_Totales * (108/100) }
  else r

/-- _add_israeli_trends, window 2020-2021 (COVID-19), split on the exact
year 2020. -/
def trends_step5 (r : FinRecord) : FinRecord :=
  if 2020 ≤ r.Annee ∧ r.Annee ≤ 2021 then
    if r.Annee = 2020 then
      { r with Recettes_Totales := r.Recettes_Totales * (85/100)
               Investissement_Tourisme := r.Investissement_Tourisme * (6/10) }
    else
      { r with Subventions_Gouvernement := r.Subventions_Gouvernement * (115/100) }
  else r

/-- _add_israeli_trends, years 2022 and later (post-COVID plan). -/
def trends_step6 (r : FinRecord) : FinRecord :=
  if 2022 ≤ r.Annee then
    { r with Investissement_Technologie := r.Investissement_Technologie * (125/100)
             Investissement_Transport := r.Investissement_Transport * (115/100)
             Investissement_Environnement := r.Investissement_Environnement * (120/100) }
  else r

/-- _add_israeli_trends applied to one row: the six blocks of the source
body in order. -/
def add_israeli_trends_row (r : FinRecord) : FinRecord :=
  trends_step6 (trends_step5 (trends_step4 (trends_step3 (trends_step2 (trends_step1 r)))))

/-- generate_financial_data: one row per year of [start_year, end_year]
(pd.date_range with annual frequency yields one year-end stamp per
calendar year), then the _add_israeli_trends pass over the rows. -/
def generate_financial_data (commune : String) (ns : Nat → Nat → ℚ) : List FinRecord :=
  (List.range (end_year - start_year + 1)).map
    (fun i => add_israeli_trends_row (generate_record (get_commune_config commune) ns i))

/-- Number of np.random.normal draws one run of generate_financial_data
performs: 20 noisy columns times 24 years. -/
def draws_per_run : Nat := 20 * (end_year - start_year + 1)

/-- The noise family induced by the implicit global random stream g when
a run starts after off draws have already been consumed: noisy column m
draws its year-i value at global position off + m * 24 + i (columns are
filled one after the other, each in year order). -/
def global_noise (g : Nat → ℚ) (off : Nat) : Nat → Nat → ℚ :=
  fun m i => g (off + m * 24 + i)

/-- A run of generate_financial_data against the implicit global random
stream g, starting at draw offset off. -/
def generate_with_global_rng (commune : String) (g : Nat → ℚ) (off : Nat) : List FinRecord :=
  generate_financial_data commune (global_noise g off)

/-- The columns _add_israeli_trends never names: Annee, Population,
Menages, Impots_Locaux, Autres_Recettes, Fonctionnement, Charge_Dette,
Personnel, Epargne_Brute, Dette_Totale, Taux_Endettement,
Taux_Fiscalite, Investissement_Education, Investissement_Culture. -/
def untouched_projection (r : FinRecord) : Nat × List ℚ :=
  (r.Annee,
   [r.Population, r.Menages, r.Impots_Locaux, r.Autres_Recettes,
    r.Fonctionnement, r.Charge_Dette, r.Personnel, r.Epargne_Brute,
    r.Dette_Totale, r.Taux_Endettement, r.Taux_Fiscalite,
    r.Investissement_Education, r.Investissement_Culture])

theorem trends_step1_Annee (r : FinRecord) : (trends_step1 r).Annee = r.Annee := by
  unfold trends_step1; split <;> rfl

theorem trends_step2_Annee (r : FinRecord) : (trends_step2 r).Annee = r.Annee := by
  unfold trends_step2; split <;> rfl

theorem trends_step3_Annee (r : FinRecord) : (trends_step3 r).Annee = r.Annee := by
  unfold trends_step3; split <;> [rfl; skip]; split <;> rfl

theorem trends_step4_Annee (r : FinRecord) : (trends_step4 r).Annee = r.Annee := by
  unfold trends_step4; split <;> rfl

theorem trends_step5_Annee (r : FinRecord) : (trends_step5 r).Annee = r.Annee := by
  unfold trends_step5; split <;> [skip; rfl]; split <;> rfl

theorem trends_step6_Annee (r : FinRecord) : (trends_step6 r).Annee = r.Annee := by
  unfold trends_step6; split <;> rfl

theorem add_israeli_trends_row_Annee (r : FinRecord) :
    (add_israeli_trends_row r).Annee = r.Annee := by
  unfold add_israeli_trends_row
  rw [trends_step6_Annee, trends_step5_Annee, trends_step4_Annee, trends_step3_Annee,
    trends_step2_Annee, trends_step1_Annee]

theorem trends_step1_Recettes (r : FinRecord) :
    (trends_step1 r).Recettes_Totales
      = if 2002 ≤ r.Annee ∧ r.Annee ≤ 2005 then r.Recettes_Totales * (95/100)
        else r.Recettes_Totales := by
  unfold trends_step1; split_ifs <;> rfl

theorem trends_step2_Recettes (r : FinRecord) :
    (trends_step2 r).Recettes_Totales
      = if 2006 ≤ r.Annee ∧ r.Annee ≤ 2008 then r.Recettes_Totales * (108/100)
        else r.Recettes_Totales := by
  unfold trends_step2; split_ifs <;> rfl

theorem trends_step3_Recettes (r : FinRecord) :
    (trends_step3 r).Recettes_Totales
      = if 2008 ≤ r.Annee ∧ r.Annee ≤ 2009 then r.Recettes_Totales * (92/100)
        else r.Recettes_Totales := by
  unfold trends_step3; split_ifs <;> rfl

theorem trends_step4_Recettes (r : FinRecord) :
    (trends_step4 r).Recettes_Totales = r.Recettes_Totales := by
  unfold trends_step4; split_ifs <;> rfl

theorem trends_step5_Recettes (r : FinRecord) :
    (trends_step5 r).Recettes_Totales
      = if r.Annee = 2020 then r.Recettes_Totales * (85/100) else r.Recettes_Totales := by
  unfold trends_step5; split_ifs <;> first | rfl | omega

theorem trends_step6_Recettes (r : FinRecord) :
    (trends_step6 r).Recettes_Totales = r.Recettes_Totales := by
  unfold trends_step6; split_ifs <;> rfl

theorem add_israeli_trends_row_Recettes (r : FinRecord) :
    (add_israeli_trends_row r).Recettes_Totales
      = r.Recettes_Totales
        * (if 2002 ≤ r.Annee ∧ r.Annee ≤ 2005 then (95/100 : ℚ) else 1)
        * (if 2006 ≤ r.Annee ∧ r.Annee ≤ 2008 then (108/100 : ℚ) else 1)
        * (if 2008 ≤ r.Annee ∧ r.Annee ≤ 2009 then (92/100 : ℚ) else 1)
        * (if r.Annee = 2020 then (85/100 : ℚ) else 1) := by
  simp only [add_israeli_trends_row, trends_step6_Recettes, trends_step5_Recettes,
    trends_step4_Recettes, trends_step3_Recettes, trends_step2_Recettes,
    trends_step1_Recettes, trends_step5_Annee, trends_step4_Annee, trends_step3_Annee,
    trends_step2_Annee, trends_step1_Annee]
  split_ifs <;> ring

theorem trends_step1_eq (r : FinRecord) :
    trends_step1 r
      = { r with
          Recettes_Totales := r.Recettes_Totales
            * (if 2002 ≤ r.Annee ∧ r.Annee ≤ 2005 then (95/100 : ℚ) else 1)
          Investissement_Tourisme := r.Investissement_Tourisme
            * (if 2002 ≤ r.Annee ∧ r.Annee ≤ 2005 then (7/10 : ℚ) else 1) } := by
  by_cases h : 2002 ≤ r.Annee ∧ r.Annee ≤ 2005 <;> simp [trends_step1, h]

theorem trends_step2_eq (r : FinRecord) :
    trends_step2 r
      = { r with
          Recettes_Totales := r.Recettes_Totales
            * (if 2006 ≤ r.Annee ∧ r.Annee ≤ 2008 then (108/100 : ℚ) else 1)
          Investissement_Technologie := r.Investissement_Technologie
            * (if 2006 ≤ r.Annee ∧ r.Annee ≤ 2008 then (16/10 : ℚ) else 1) } := by
  by_cases h : 2006 ≤ r.Annee ∧ r.Annee ≤ 2008 <;> simp [trends_step2, h]

theorem trends_step3_eq (r : FinRecord) :
    trends_step3 r
      = { r with
          Recettes_Totales := r.Recettes_Totales
            * (if 2008 ≤ r.Annee ∧ r.Annee ≤ 2009 then (92/100 : ℚ) else 1)
          Investissement := r.Investissement
            * (if 2008 ≤ r.Annee ∧ r.Annee ≤ 2009 then (78/100 : ℚ) else 1)
          Investissement_Technologie := r.Investissement_Technologie
            * (if 2010 ≤ r.Annee ∧ r.Annee ≤ 2019 then (12/10 : ℚ) else 1)
          Subventions_Gouvernement := r.Subventions_Gouvernement
            * (if 2010 ≤ r.Annee ∧ r.Annee ≤ 2019 then (105/100 : ℚ) else 1) } := by
  by_cases h1 : 2008 ≤ r.Annee ∧ r.Annee ≤ 2009
  · have h2 : ¬(2010 ≤ r.Annee ∧ r.Annee ≤ 2019) := by omega
    simp [trends_step3, h1, h2]
  · by_cases h2 : 2010 ≤ r.Annee ∧ r.Annee ≤ 2019
    · simp [trends_step3, h1, h2]
    · simp [trends_step3, h1, h2]

theorem trends_step4_eq (r : FinRecord) :
    trends_step4 r
      = { r with
          Depenses_Totales := r.Depenses_Totales
            * (if r.Annee = 2014 then (108/100 : ℚ) else 1)
          Investissement_Securite := r.Investissement_Securite
            * (if r.Annee = 2014 then (25/10 : ℚ) else 1) } := by
  by_cases h : r.Annee = 2014 <;> simp [trends_step4, h]

theorem trends_step5_eq (r : FinRecord) :
    trends_step5 r
      = { r with
          Recettes_Totales := r.Recettes_Totales
            * (if r.Annee = 2020 then (85/100 : ℚ) else 1)
          Investissement_Tourisme := r.Investissement_Tourisme
            * (if r.Annee = 2020 then (6/10 : ℚ) else 1)
          Subventions_Gouvernement := r.Subventions_Gouvernement
            * (if r.Annee = 2021 then (115/100 : ℚ) else 1) } := by
  by_cases h1 : 2020 ≤ r.Annee ∧ r.Annee ≤ 2021
  · by_cases h2 : r.Annee = 2020
    · have h3 : r.Annee ≠ 2021 := by omega
      simp [trends_step5, h1, h2, h3]
    · have h3 : r.Annee = 2021 := by omega
      simp [trends_step5, h1, h2, h3]
  · have h2 : r.Annee ≠ 2020 := by omega
    have h3 : r.Annee ≠ 2021 := by omega
    simp [trends_step5, h1, h2, h3]

theorem trends_step6_eq (r : FinRecord) :
    trends_step6 r
      = { r with
          Investissement_Technologie := r.Investissement_Technologie
            * (if 2022 ≤ r.Annee then (125/100 : ℚ) else 1)
          Investissement_Transport := r.Investissement_Transport
            * (if 2022 ≤ r.Annee then (115/100 : ℚ) else 1)
          Investissement_Environnement := r.Investissement_Environnement
            * (if 2022 ≤ r.Annee then (120/100 : ℚ) else 1) } := by
  by_cases h : 2022 ≤ r.Annee <;> simp [trends_step6, h]

theorem generate_record_Annee (cfg : CommuneConfig) (ns : Nat → Nat → ℚ) (i : Nat) :
    (generate_record cfg ns i).Annee = start_year + i := rfl

theorem generate_record_Recettes (cfg : CommuneConfig) (ns : Nat → Nat → ℚ) (i : Nat) :
    (generate_record cfg ns i).Recettes_Totales = simulate_total_revenue cfg (ns 0) i := rfl

theorem get_commune_config_not_known (name : String) (h : name ∉ knownCommunes) :
    get_commune_config name = defaultConfig := by
  simp only [knownCommunes, List.mem_cons, List.not_mem_nil, or_false, not_or] at h
  obtain ⟨h1, h2, h3, h4, h5, h6, h7, h8, h9, h10, h11, h12⟩ := h
  simp [get_commune_config, h1, h2, h3, h4, h5, h6, h7, h8, h9, h10, h11, h12]

theorem get_commune_config_type_ne (commune : String) :
    (get_commune_config commune).type ≠ "technologie" := by
  by_cases hk : commune ∈ knownCommunes
  · fin_cases hk <;> decide
  · rw [get_commune_config_not_known commune hk]
    decide

theorem get_commune_config_tlv :
    get_commune_config "Tel Aviv-Jaffa"
      = ⟨460000, 12000, "metropolitaine",
          ["finance", "technologie", "commerce", "tourisme", "culture"]⟩ := rfl

theorem generate_financial_data_getElem (commune : String) (ns : Nat → Nat → ℚ)
    (i : Nat) (h : i < 24) :
    (generate_financial_data commune ns)[i]?
      = some (add_israeli_trends_row (generate_record (get_commune_config commune) ns i)) := by
  unfold generate_financial_data
  rw [List.getElem?_map]
  have hr : (List.range (end_year - start_year + 1))[i]? = some i := by
    rw [List.getElem?_range]
    simp only [end_year, start_year]
    omega
  rw [hr]
  rfl

/-- C1, counterexample: not every metric follows the claimed shape.  The
Population column ignores the noise family entirely (same value under the
constant-2 and the constant-1 noise families), and the Dette_Totale
column has no linear-in-offset growth factor (same value at offsets 5
and 0, both non-event years, noise fixed to 1), while Recettes_Totales
does grow in the offset. -/
theorem c1_counterexample :
    (generate_record defaultConfig (fun _ _ => 2) 3).Population
      = (generate_record defaultConfig (fun _ _ => 1) 3).Population
    ∧ (generate_record defaultConfig (fun _ _ => 1) 5).Dette_Totale
      = (generate_record defaultConfig (fun _ _ => 1) 0).Dette_Totale
    ∧ (generate_record defaultConfig (fun _ _ => 1) 5).Recettes_Totales
      ≠ (generate_record defaultConfig (fun _ _ => 1) 0).Recettes_Totales := by
  refine ⟨rfl, ?_, ?_⟩
  · norm_num [generate_record, simulate_total_debt, debt_event_change, defaultConfig,
      convert_to_shekels, eur_to_ils, start_year]
  · norm_num [generate_record, simulate_total_revenue, defaultConfig, convert_to_shekels,
      eur_to_ils, start_year, (by decide : ("locale" : String) ≠ "metropolitaine"),
      (by decide : ("locale" : String) ≠ "technologie")]

/-- C1, amended: the Population and Menages columns are
base-times-linear-growth with no noise draw; Recettes_Totales follows
the claimed shape base times (1 + rate times i) times noise;
Dette_Totale is base times an event-year change times noise with no
growth factor; and the noise standard deviations of the twenty noisy
columns all lie in [0.03, 0.20]. -/
theorem c1_amended (cfg : CommuneConfig) (ns : Nat → Nat → ℚ) (i : Nat) :
    (generate_record cfg ns i).Population
      = cfg.population_base
        * (1 + (if cfg.type = "capitale" then (18/1000 : ℚ)
                else if cfg.type = "metropolitaine" then 22/1000
                else if cfg.type = "touristique" then 25/1000
                else 20/1000) * i)
    ∧ (generate_record cfg ns i).Menages = cfg.population_base / 3 * (1 + 18/1000 * i)
    ∧ (generate_record cfg ns i).Recettes_Totales
      = convert_to_shekels cfg.budget_base
        * (1 + (if cfg.type = "metropolitaine" then (38/1000 : ℚ)
                else if cfg.type = "technologie" then 42/1000
                else 35/1000) * i)
        * ns 0 i
    ∧ (generate_record cfg ns i).Dette_Totale
      = convert_to_shekels (cfg.budget_base * (75/100))
        * debt_event_change (start_year + i) * ns 10 i
    ∧ metric_noise_stddevs.length = 20
    ∧ (∀ s ∈ metric_noise_stddevs, 3/100 ≤ s ∧ s ≤ 20/100) := by
  refine ⟨rfl, rfl, rfl, rfl, rfl, ?_⟩
  intro s hs
  fin_cases hs <;> norm_num

/-- Witness for c1_amended at concrete inputs: the first noise standard
deviation (0.07, column Recettes_Totales) lies in the stated bounds. -/
theorem c1_amended_witness : (3/100 : ℚ) ≤ 7/100 ∧ (7/100 : ℚ) ≤ 20/100 :=
  (c1_amended defaultConfig (fun _ _ => 1) 0).2.2.2.2.2 (7/100)
    (by simp [metric_noise_stddevs])

/-- C2: generate_financial_data produces exactly end_year - start_year
+ 1 = 24 rows, whose year column is 2002, 2003, ..., 2025: strictly
increasing, each year one more than the previous, no gaps. -/
theorem c2_one_row_per_year (commune : String) (ns : Nat → Nat → ℚ) :
    (generate_financial_data commune ns).length = end_year - start_year + 1
    ∧ (generate_financial_data commune ns).length = 24
    ∧ (generate_financial_data commune ns).map FinRecord.Annee = List.range' start_year 24
    ∧ List.Chain' (fun a b => b = a + 1) ((generate_financial_data commune ns).map FinRecord.Annee)
    ∧ List.Pairwise (· < ·) ((generate_financial_data commune ns).map FinRecord.Annee) := by
  have hmap : (generate_financial_data commune ns).map FinRecord.Annee
      = List.range' start_year 24 := by
    unfold generate_financial_data
    rw [List.map_map]
    have hfun : (FinRecord.Annee ∘ fun i =>
        add_israeli_trends_row (generate_record (get_commune_config commune) ns i))
        = fun i => start_year + i := by
      funext i
      simp only [Function.comp_apply, add_israeli_trends_row_Annee]
      rfl
    rw [hfun]
    decide
  have hlist : List.range' start_year 24
      = [2002, 2003, 2004, 2005, 2006, 2007, 2008, 2009, 2010, 2011, 2012, 2013, 2014,
         2015, 2016, 2017, 2018, 2019, 2020, 2021, 2022, 2023, 2024, 2025] := rfl
  refine ⟨by simp [generate_financial_data, end_year, start_year],
    by simp [generate_financial_data, end_year, start_year], hmap, ?_, ?_⟩
  · rw [hmap, hlist]
    simp [List.chain'_cons]
  · rw [hmap, hlist]
    simp [List.pairwise_cons]

/-- C3, counterexample: for Tel Aviv-Jaffa with every noise factor fixed
to 1, the Recettes_Totales cell of the first row (year 2002) of the
table returned by generate_financial_data is not the converted budget
base times 1.0: the _add_israeli_trends pass has multiplied it by 0.95
(2002 lies in the Second Intifada window 2002-2005). -/
theorem c3_counterexample :
    ((generate_financial_data "Tel Aviv-Jaffa" (fun _ _ => 1))[0]?).map
        FinRecord.Recettes_Totales
      ≠ some (convert_to_shekels 12000) := by
  rw [generate_financial_data_getElem "Tel Aviv-Jaffa" (fun _ _ => 1) 0 (by omega)]
  simp only [Option.map_some', ne_eq, Option.some.injEq]
  rw [add_israeli_trends_row_Recettes, generate_record_Recettes, generate_record_Annee,
    get_commune_config_tlv]
  norm_num [simulate_total_revenue, convert_to_shekels, eur_to_ils, start_year]

/-- C3, amended: for Tel Aviv-Jaffa with all noise factors fixed to 1,
the returned table's Recettes_Totales at year 2002 (first row) equals
the converted budget base times 1.0 times the 0.95 overlay factor of the
2002-2005 window, and at year 2003 (second row) it equals that base
times (1 + 0.038, the metropolitaine growth rate) times 0.95. -/
theorem c3_amended :
    ((generate_financial_data "Tel Aviv-Jaffa" (fun _ _ => 1))[0]?).map FinRecord.Annee
      = some 2002
    ∧ ((generate_financial_data "Tel Aviv-Jaffa" (fun _ _ => 1))[0]?).map
        FinRecord.Recettes_Totales
      = some (convert_to_shekels 12000 * 1 * (95/100))
    ∧ ((generate_financial_data "Tel Aviv-Jaffa" (fun _ _ => 1))[1]?).map
        FinRecord.Annee = some 2003
    ∧ ((generate_financial_data "Tel Aviv-Jaffa" (fun _ _ => 1))[1]?).map
        FinRecord.Recettes_Totales
      = some (convert_to_shekels 12000 * (1 + 38/1000 * 1) * (95/100)) := by
  rw [generate_financial_data_getElem "Tel Aviv-Jaffa" (fun _ _ => 1) 0 (by omega),
    generate_financial_data_getElem "Tel Aviv-Jaffa" (fun _ _ => 1) 1 (by omega)]
  simp only [Option.map_some', Option.some.injEq]
  refine ⟨?_, ?_, ?_, ?_⟩
  · rw [add_israeli_trends_row_Annee, generate_record_Annee]
    decide
  · rw [add_israeli_trends_row_Recettes, generate_record_Recettes, generate_record_Annee,
      get_commune_config_tlv]
    norm_num [simulate_total_revenue, convert_to_shekels, eur_to_ils, start_year]
  · rw [add_israeli_trends_row_Annee, generate_record_Annee]
    decide
  · rw [add_israeli_trends_row_Recettes, generate_record_Recettes, generate_record_Annee,
      get_commune_config_tlv]
    norm_num [simulate_total_revenue, convert_to_shekels, eur_to_ils, start_year]

/-- C4, counterexample: the technology-investment specialty multiplier
is not 1.0 when the tag is absent: for the default profile, which has no
"technologie" specialty, the generated value at offset 0 (year 2002, not
a technology plan year) with noise 1 is the base times 0.7, not the
base. -/
theorem c4_counterexample :
    "technologie" ∉ defaultConfig.specialites
    ∧ simulate_technology_investment defaultConfig (fun _ => 1) 0
        = convert_to_shekels (defaultConfig.budget_base * (8/100)) * (7/10)
    ∧ convert_to_shekels (defaultConfig.budget_base * (8/100)) * (7/10)
        ≠ convert_to_shekels (defaultConfig.budget_base * (8/100)) := by
  have hc : "technologie" ∉ defaultConfig.specialites := by decide
  have hm : technologie_multiplier defaultConfig = 7/10 := by
    simp [technologie_multiplier, hc]
  refine ⟨hc, ?_, ?_⟩
  · simp only [simulate_technology_investment]
    rw [hm]
    norm_num [defaultConfig, convert_to_shekels, eur_to_ils, start_year]
  · norm_num [defaultConfig, convert_to_shekels, eur_to_ils]

/-- C4, amended: every sector specialty multiplier is strictly greater
than 1 when its tag is present; when the tag is absent the multiplier is
1.0 for transport and education but strictly less than 1 for technology
(0.7), tourism (0.8), environment (0.9) and culture (0.8). -/
theorem c4_amended (cfg : CommuneConfig) :
    ("technologie" ∈ cfg.specialites →
      technologie_multiplier cfg = 18/10 ∧ (1 : ℚ) < 18/10)
    ∧ ("technologie" ∉ cfg.specialites →
      technologie_multiplier cfg = 7/10 ∧ (7/10 : ℚ) < 1)
    ∧ ("tourisme" ∈ cfg.specialites →
      tourisme_multiplier cfg = 17/10 ∧ (1 : ℚ) < 17/10)
    ∧ ("tourisme" ∉ cfg.specialites →
      tourisme_multiplier cfg = 8/10 ∧ (8/10 : ℚ) < 1)
    ∧ ("transport" ∈ cfg.specialites →
      transport_multiplier cfg = 14/10 ∧ (1 : ℚ) < 14/10)
    ∧ ("transport" ∉ cfg.specialites → transport_multiplier cfg = 1)
    ∧ ("education" ∈ cfg.specialites →
      education_multiplier cfg = 15/10 ∧ (1 : ℚ) < 15/10)
    ∧ ("education" ∉ cfg.specialites → education_multiplier cfg = 1)
    ∧ ("environnement" ∈ cfg.specialites →
      environnement_multiplier cfg = 14/10 ∧ (1 : ℚ) < 14/10)
    ∧ ("environnement" ∉ cfg.specialites →
      environnement_multiplier cfg = 9/10 ∧ (9/10 : ℚ) < 1)
    ∧ ("culture" ∈ cfg.specialites →
      culture_multiplier cfg = 17/10 ∧ (1 : ℚ) < 17/10)
    ∧ ("culture" ∉ cfg.specialites →
      culture_multiplier cfg = 8/10 ∧ (8/10 : ℚ) < 1) := by
  refine ⟨fun h => ?_, fun h => ?_, fun h => ?_, fun h => ?_, fun h => ?_, fun h => ?_,
    fun h => ?_, fun h => ?_, fun h => ?_, fun h => ?_, fun h => ?_, fun h => ?_⟩ <;>
    simp [technologie_multiplier, tourisme_multiplier, transport_multiplier,
      education_multiplier, environnement_multiplier, culture_multiplier, h] <;>
    norm_num

/-- Witness for c4_amended at concrete profiles: Tel Aviv-Jaffa carries
the "technologie" tag and gets multiplier 1.8; the default profile
(unknown name) does not and gets 0.7. -/
theorem c4_amended_witness :
    technologie_multiplier (get_commune_config "Tel Aviv-Jaffa") = 18/10
    ∧ technologie_multiplier (get_commune_config "Nowhereville") = 7/10 :=
  ⟨((c4_amended (get_commune_config "Tel Aviv-Jaffa")).1 (by decide)).1,
   ((c4_amended (get_commune_config "Nowhereville")).2.1 (by decide)).1⟩

/-- C5: year 2008 lies in both the 2006-2008 boom window and the
2008-2009 crisis window, and the trends pass applies both multipliers to
Recettes_Totales cumulatively (1.08 and then 0.92); since rational
multiplication commutes, the result does not depend on the application
order. -/
theorem c5_overlapping_windows (r : FinRecord) (h : r.Annee = 2008) :
    (add_israeli_trends_row r).Recettes_Totales
      = r.Recettes_Totales * (108/100) * (92/100)
    ∧ r.Recettes_Totales * (108/100) * (92/100)
      = r.Recettes_Totales * (92/100) * (108/100) := by
  constructor
  · rw [add_israeli_trends_row_Recettes, h]
    norm_num
  · ring

/-- Witness for c5_overlapping_windows at a concrete row with year 2008
and every metric cell equal to 1. -/
theorem c5_overlapping_windows_witness :
    (add_israeli_trends_row
        ⟨2008, 1, 1, 1, 1, 1, 1, 1, 1, 1, 1, 1, 1, 1, 1, 1, 1, 1, 1, 1, 1, 1, 1⟩).Recettes_Totales
      = 1 * (108/100) * (92/100)
    ∧ (1 : ℚ) * (108/100) * (92/100) = 1 * (92/100) * (108/100) :=
  c5_overlapping_windows
    ⟨2008, 1, 1, 1, 1, 1, 1, 1, 1, 1, 1, 1, 1, 1, 1, 1, 1, 1, 1, 1, 1, 1, 1⟩ rfl

/-- C6: the trends pass modifies only the cells named by a window whose
year range contains the row's year, and nothing else.  The full
characterization: the output row is the input row with each named
column multiplied by its window factors, every factor guarded by the
window's year range (so it is 1, and the cell unchanged, for every year
the window does not contain - e.g. Investissement_Technologie at 2003,
or Investissement_Securite in any year other than 2014); every column
no window names (Annee, Population, Menages, Impots_Locaux,
Autres_Recettes, Fonctionnement, Charge_Dette, Personnel, Epargne_Brute,
Dette_Totale, Taux_Endettement, Taux_Fiscalite,
Investissement_Education, Investissement_Culture) is copied verbatim,
as the second conjunct restates. -/
theorem c6_trends_frame (r : FinRecord) :
    add_israeli_trends_row r
      = { r with
          Recettes_Totales := r.Recettes_Totales
            * (if 2002 ≤ r.Annee ∧ r.Annee ≤ 2005 then (95/100 : ℚ) else 1)
            * (if 2006 ≤ r.Annee ∧ r.Annee ≤ 2008 then (108/100 : ℚ) else 1)
            * (if 2008 ≤ r.Annee ∧ r.Annee ≤ 2009 then (92/100 : ℚ) else 1)
            * (if r.Annee = 2020 then (85/100 : ℚ) else 1)
          Subventions_Gouvernement := r.Subventions_Gouvernement
            * (if 2010 ≤ r.Annee ∧ r.Annee ≤ 2019 then (105/100 : ℚ) else 1)
            * (if r.Annee = 2021 then (115/100 : ℚ) else 1)
          Depenses_Totales := r.Depenses_Totales
            * (if r.Annee = 2014 then (108/100 : ℚ) else 1)
          Investissement := r.Investissement
            * (if 2008 ≤ r.Annee ∧ r.Annee ≤ 2009 then (78/100 : ℚ) else 1)
          Investissement_Technologie := r.Investissement_Technologie
            * (if 2006 ≤ r.Annee ∧ r.Annee ≤ 2008 then (16/10 : ℚ) else 1)
            * (if 2010 ≤ r.Annee ∧ r.Annee ≤ 2019 then (12/10 : ℚ) else 1)
            * (if 2022 ≤ r.Annee then (125/100 : ℚ) else 1)
          Investissement_Tourisme := r.Investissement_Tourisme
            * (if 2002 ≤ r.Annee ∧ r.Annee ≤ 2005 then (7/10 : ℚ) else 1)
            * (if r.Annee = 2020 then (6/10 : ℚ) else 1)
          Investissement_Transport := r.Investissement_Transport
            * (if 2022 ≤ r.Annee then (115/100 : ℚ) else 1)
          Investissement_Securite := r.Investissement_Securite
            * (if r.Annee = 2014 then (25/10 : ℚ) else 1)
          Investissement_Environnement := r.Investissement_Environnement
            * (if 2022 ≤ r.Annee then (120/100 : ℚ) else 1) }
    ∧ untouched_projection (add_israeli_trends_row r) = untouched_projection r := by
  constructor
  · unfold add_israeli_trends_row
    rw [trends_step1_eq, trends_step2_eq, trends_step3_eq, trends_step4_eq,
      trends_step5_eq, trends_step6_eq]
  · unfold add_israeli_trends_row
    rw [trends_step1_eq, trends_step2_eq, trends_step3_eq, trends_step4_eq,
      trends_step5_eq, trends_step6_eq]
    rfl

/-- C7, counterexample: the default profile's category string in the
code is "locale", not "local" as the claim spells it. -/
theorem c7_counterexample : (get_commune_config "Nowhereville").type ≠ "local" := by
  decide

/-- C7, amended: profile resolution never fails: every name outside the
static table resolves to the default profile; in particular
"Nowhereville" resolves to the default profile, whose population base is
50000, budget base 800 and category "locale" (the code's spelling of the
default category). -/
theorem c7_amended :
    (∀ name, name ∉ knownCommunes → get_commune_config name = defaultConfig)
    ∧ get_commune_config "Nowhereville" = defaultConfig
    ∧ defaultConfig.population_base = 50000
    ∧ defaultConfig.budget_base = 800
    ∧ defaultConfig.type = "locale" := by
  exact ⟨fun name h => get_commune_config_not_known name h, rfl, rfl, rfl, rfl⟩

/-- Witness for c7_amended at the concrete name "Nowhereville", which is
not in the static table. -/
theorem c7_amended_witness : get_commune_config "Nowhereville" = defaultConfig :=
  c7_amended.1 "Nowhereville" (by decide)

/-- C8, counterexample: the code draws noise from the implicit global
random state, so a second run starts where the first one stopped: with
the concrete global stream g n = n, the run starting at draw offset 0
and the successive run starting at offset draws_per_run produce
different tables (already their first Recettes_Totales cells differ). -/
theorem c8_counterexample :
    generate_with_global_rng "Tel Aviv-Jaffa" (fun n => (n : ℚ)) 0
      ≠ generate_with_global_rng "Tel Aviv-Jaffa" (fun n => (n : ℚ)) draws_per_run := by
  intro hEq
  have h0 := congrArg (fun t => (t[0]?).map FinRecord.Recettes_Totales) hEq
  simp only [generate_with_global_rng] at h0
  rw [generate_financial_data_getElem "Tel Aviv-Jaffa" (global_noise (fun n => (n : ℚ)) 0)
      0 (by omega),
    generate_financial_data_getElem "Tel Aviv-Jaffa"
      (global_noise (fun n => (n : ℚ)) draws_per_run) 0 (by omega)] at h0
  simp only [Option.map_some', Option.some.injEq, add_israeli_trends_row_Recettes,
    generate_record_Recettes, generate_record_Annee, get_commune_config_tlv] at h0
  norm_num [simulate_total_revenue, convert_to_shekels, eur_to_ils, start_year,
    global_noise, draws_per_run, end_year] at h0

/-- C8, amended: the code has no seed parameter and reads the implicit
global stream, so successive runs need not agree; but in deterministic
mode, with every noise draw equal to 1, the table is a function of the
profile alone: runs starting at any two global draw offsets produce
identical tables. -/
theorem c8_amended (commune : String) (off1 off2 : Nat) :
    generate_with_global_rng commune (fun _ => 1) off1
      = generate_with_global_rng commune (fun _ => 1) off2 :=
  congrArg (generate_financial_data commune)
    (rfl : global_noise (fun _ => 1) off1 = global_noise (fun _ => 1) off2)

/-- C9, counterexample: the generated table has 23 columns, not 20. -/
theorem c9_counterexample : colonnes.length ≠ 20 := by decide

/-- C9, amended: the table has exactly 23 pairwise-distinct columns
(year, population, households, the revenue, expense, debt and rate
columns, and the seven per-sector investment columns), with one row per
year of the range. -/
theorem c9_amended (commune : String) (ns : Nat → Nat → ℚ) :
    colonnes.length = 23
    ∧ colonnes.Nodup
    ∧ (generate_financial_data commune ns).length = end_year - start_year + 1 := by
  refine ⟨by decide, by decide, ?_⟩
  simp [generate_financial_data]

/-- C10: for every resolvable profile the total-revenue growth rate is
0.038 exactly when the profile type is "metropolitaine" and 0.035
otherwise; the 0.042 branch for type "technologie" is unreachable since
no entry of the static table (nor the default) has that type. -/
theorem c10_revenue_growth_rate (commune : String) :
    (∀ noise i, simulate_total_revenue (get_commune_config commune) noise i
        = convert_to_shekels (get_commune_config commune).budget_base
          * (1 + (if (get_commune_config commune).type = "metropolitaine"
                  then (38/1000 : ℚ) else 35/1000) * i) * noise i)
    ∧ (get_commune_config commune).type ≠ "technologie" := by
  have ht : (get_commune_config commune).type ≠ "technologie" :=
    get_commune_config_type_ne commune
  refine ⟨fun noise i => ?_, ht⟩
  by_cases hm : (get_commune_config commune).type = "metropolitaine"
  · simp [simulate_total_revenue, hm]
  · simp [simulate_total_revenue, hm, ht]

end Isra
